import Mathlib

set_option maxRecDepth 8000

/-!
Verification of the GBIF query scripts: the query-string construction and the
error-path behaviour of the three DuckDB-based functions in `duck_gbif.py`
and of the ClickHouse subprocess wrapper in `clickhouse_gbif.py`.
-/

namespace GbifSpec

/-- An in-memory result table (a pandas DataFrame): column names plus rows. -/
structure Frame where
  columns : List String
  rows : List (List String)
deriving DecidableEq

/-- Python truthiness of an optional integer: `None` and `0` are falsy,
every other integer is truthy. -/
def truthyInt : Option Int → Bool
  | none => false
  | some n => n != 0

/-- Python truthiness of an optional string: `None` and `""` are falsy. -/
def truthyStr : Option String → Bool
  | none => false
  | some s => !s.isEmpty

/-- Python `str()` of an optional integer as used in an f-string:
`str(None)` is the literal text `None`. -/
def pyStr : Option Int → String
  | none => "None"
  | some n => toString n

/-- Whether `pat` occurs at the head of `s` (character lists). -/
def startsWithChars : List Char → List Char → Bool
  | [], _ => true
  | _ :: _, [] => false
  | p :: ps, c :: cs => p == c && startsWithChars ps cs

/-- Number of (possibly overlapping) occurrences of `pat` starting at each
position of `s`. -/
def countOccs (pat : List Char) : List Char → Nat
  | [] => 0
  | c :: cs => (if startsWithChars pat (c :: cs) then 1 else 0) + countOccs pat cs

/-- Number of occurrences of the substring `pat` in the string `s`. -/
def countSubstr (pat s : String) : Nat := countOccs pat.data s.data

/-! ### Query strings built by `duck_gbif.py` -/

/-- The S3 path built by `read_gbif_from_s3` (the region is fixed to
`us-east-1` in the f-string); `duck_gbif.py` line 27. -/
def read_gbif_s3_path (snapshot_date : String) : String :=
  "s3://gbif-open-data-us-east-1/occurrence/" ++ snapshot_date ++ "/occurrence.parquet/*"

/-- The base SELECT of `read_gbif_from_s3` before the optional LIMIT;
`duck_gbif.py` line 30. -/
def read_gbif_base (snapshot_date : String) : String :=
  "SELECT * FROM read_parquet(\x27" ++ read_gbif_s3_path snapshot_date ++ "\x27)"

/-- The query string built by `read_gbif_from_s3`; `duck_gbif.py` lines 30-32.
The LIMIT clause is appended only when `limit` is truthy. -/
def read_gbif_query (snapshot_date : String) (limit : Option Int) : String :=
  if truthyInt limit then read_gbif_base snapshot_date ++ (" LIMIT " ++ pyStr limit)
  else read_gbif_base snapshot_date

/-- The S3 path built from `region` and `snapshot_date`; `duck_gbif.py`
lines 75 and 128. -/
def s3_path (region snapshot_date : String) : String :=
  "s3://gbif-open-data-" ++ region ++ "/occurrence/" ++ snapshot_date ++ "/occurrence.parquet/*"

/-- The aggregate query of `get_top_countries_by_species` up to and including
the text `LIMIT ` (the triple-quoted f-string of `duck_gbif.py` lines 78-86,
with its exact newlines and trailing spaces). -/
def get_top_query_head (snapshot_date region : String) : String :=
  "\n        SELECT \n            countrycode, \n            COUNT(DISTINCT specieskey) AS distinct_species_count \n        FROM read_parquet(\x27"
    ++ s3_path region snapshot_date
    ++ "\x27)\n        WHERE countrycode IS NOT NULL\n        GROUP BY countrycode \n        ORDER BY distinct_species_count DESC \n        LIMIT "

/-- The full aggregate query of `get_top_countries_by_species`;
`duck_gbif.py` lines 78-87. The limit is interpolated unconditionally. -/
def get_top_countries_query (snapshot_date region : String) (limit : Option Int) : String :=
  get_top_query_head snapshot_date region ++ pyStr limit ++ "\n        "

/-- The base filtered-scan SELECT of `query_gbif_with_filter`;
`duck_gbif.py` line 131. -/
def filter_base (snapshot_date region : String) : String :=
  "SELECT * FROM read_parquet(\x27" ++ s3_path region snapshot_date ++ "\x27) WHERE 1=1"

/-- The country-code condition appended by `query_gbif_with_filter`;
`duck_gbif.py` line 134. -/
def country_cond (country_code : String) : String :=
  " AND countrycode = \x27" ++ country_code ++ "\x27"

/-- The species condition appended by `query_gbif_with_filter`;
`duck_gbif.py` line 137. -/
def species_cond (species : String) : String :=
  " AND species LIKE \x27%" ++ species ++ "%\x27"

/-- The filtered-scan query before the optional LIMIT: the base plus the two
optional conditions, each appended only when its parameter is truthy;
`duck_gbif.py` lines 131-137. -/
def filter_conds (snapshot_date region : String) (country_code species : Option String) : String :=
  let q := filter_base snapshot_date region
  let q := if truthyStr country_code then q ++ country_cond (country_code.getD "") else q
  if truthyStr species then q ++ species_cond (species.getD "") else q

/-- The full filtered-scan query of `query_gbif_with_filter`;
`duck_gbif.py` lines 131-140. -/
def query_gbif_with_filter_query (snapshot_date region : String)
    (country_code species : Option String) (limit : Option Int) : String :=
  if truthyInt limit then
    filter_conds snapshot_date region country_code species ++ (" LIMIT " ++ pyStr limit)
  else filter_conds snapshot_date region country_code species

/-- The LIMIT text the filtered and unfiltered scans append for a given
`limit` value (empty when the limit is falsy). -/
def limit_suffix (limit : Option Int) : String :=
  if truthyInt limit then " LIMIT " ++ pyStr limit else ""

/-! ### The hardcoded ClickHouse query of `clickhouse_gbif.py` -/

/-- The storage URL inside the hardcoded ClickHouse query;
`clickhouse_gbif.py` line 21. -/
def clickhouse_s3_url : String :=
  "https://gbif-open-data-eu-central-1.s3.eu-central-1.amazonaws.com/occurrence/2025-11-01/occurrence.parquet/*"

/-- The hardcoded aggregate query (module-level `query`);
`clickhouse_gbif.py` lines 19-25, with its exact newlines and trailing
spaces. -/
def clickhouse_query_text : String :=
  "\nSELECT countrycode, countDistinct(specieskey) AS distinct_species_count \nFROM s3(\x27"
    ++ clickhouse_s3_url
    ++ "\x27, Parquet) \nGROUP BY countrycode \nORDER BY distinct_species_count DESC \nLIMIT 10\n"

/-! ### Spec-side definitions (refinement targets) -/

/-- The spec's storage-path template
`scheme://gbif-open-data-region/occurrence/date/occurrence.parquet/*`,
written from the spec's words to compare against the paths the code builds. -/
def spec_path_template (scheme region snapshot_date : String) : String :=
  scheme ++ "://gbif-open-data-" ++ region ++ "/occurrence/" ++ snapshot_date ++ "/occurrence.parquet/*"

/-- Modelled from the spec: a query text excludes rows whose `countrycode`
is null exactly when it contains the null-exclusion filter on that column. -/
def excludesNullCountrycode (q : String) : Bool :=
  decide (1 ≤ countSubstr "countrycode IS NOT NULL" q)

/-! ### Error-path model of the DuckDB functions

Each `conn.execute(...)` call either returns a result table, raises a Python
`Exception` (caught by the functions' `except Exception` clause), or raises a
non-`Exception` interruption such as `KeyboardInterrupt` (not caught, but the
`finally` clause still runs). An engine is modelled as a function from the
executed statement text to such an outcome. -/

/-- Outcome of one `conn.execute` call. -/
inductive Outcome where
  | ok : Frame → Outcome
  | exc : String → Outcome
  | fatal : String → Outcome
deriving DecidableEq

/-- The observable result of one call to a `duck_gbif.py` function: the
returned value (`Except.error` means an uncaught exception propagated out of
the call), everything printed in order, and whether the connection had been
closed when the call ended. -/
structure CallResult where
  result : Except String (Option Frame)
  prints : List String
  connClosed : Bool

/-- Python `try ... except Exception ... finally conn.close()` around a
function body that has produced outcome `b.1` and prints `b.2`: a normal body
returns its frame, a caught exception appends the handler's prints and
returns `None`, a non-`Exception` propagates; the `finally` clause closes the
connection on every path. -/
def tryExceptFinally (b : Outcome × List String) (handlerPrints : String → List String) :
    CallResult :=
  match b with
  | (.ok f, ps) => ⟨.ok (some f), ps, true⟩
  | (.exc e, ps) => ⟨.ok none, ps ++ handlerPrints e, true⟩
  | (.fatal e, ps) => ⟨.error e, ps, true⟩

/-- The try-block of `read_gbif_from_s3`: the three setup statements, the
query execution, and the success print, stopping at the first raised outcome;
`duck_gbif.py` lines 18-38. -/
def read_gbif_tryBody (engine : String → Outcome) (snapshot_date : String)
    (limit : Option Int) : Outcome × List String :=
  match engine "INSTALL httpfs;" with
  | .ok _ =>
    match engine "LOAD httpfs;" with
    | .ok _ =>
      match engine "SET s3_region=\x27us-east-1\x27;" with
      | .ok _ =>
        match engine (read_gbif_query snapshot_date limit) with
        | .ok f => (.ok f, ["Successfully read " ++ toString f.rows.length ++ " rows from GBIF"])
        | o => (o, [])
      | o => (o, [])
    | o => (o, [])
  | o => (o, [])

/-- Model of `read_gbif_from_s3`; `duck_gbif.py` lines 3-49. -/
def read_gbif_from_s3 (engine : String → Outcome) (snapshot_date : String)
    (limit : Option Int) : CallResult :=
  tryExceptFinally (read_gbif_tryBody engine snapshot_date limit)
    (fun e =>
      ["Error reading from S3: " ++ e,
       "\nTroubleshooting tips:",
       "1. Ensure the snapshot date exists (e.g., \x272023-06-01\x27, \x272024-01-01\x27)",
       "2. Check your internet connection",
       "3. Verify the S3 path is correct"])

/-- The try-block of `get_top_countries_by_species` (the "Querying GBIF data
from ..." line is printed before the query executes, the "Top ..." line only
on success); `duck_gbif.py` lines 66-93. -/
def get_top_tryBody (engine : String → Outcome) (snapshot_date region : String)
    (limit : Option Int) : Outcome × List String :=
  match engine "INSTALL httpfs;" with
  | .ok _ =>
    match engine "LOAD httpfs;" with
    | .ok _ =>
      match engine ("SET s3_region=\x27" ++ region ++ "\x27;") with
      | .ok _ =>
        match engine (get_top_countries_query snapshot_date region limit) with
        | .ok f =>
          (.ok f,
           ["Querying GBIF data from " ++ region ++ "...",
            "\nTop " ++ pyStr limit ++ " countries by distinct species count:"])
        | o => (o, ["Querying GBIF data from " ++ region ++ "..."])
      | o => (o, [])
    | o => (o, [])
  | o => (o, [])

/-- Model of `get_top_countries_by_species`; `duck_gbif.py` lines 52-104. -/
def get_top_countries_by_species (engine : String → Outcome)
    (snapshot_date region : String) (limit : Option Int) : CallResult :=
  tryExceptFinally (get_top_tryBody engine snapshot_date region limit)
    (fun e =>
      ["Error querying S3: " ++ e,
       "\nTroubleshooting tips:",
       "1. Verify snapshot date \x27" ++ snapshot_date ++ "\x27 exists",
       "2. Check region \x27" ++ region ++ "\x27 is correct (us-east-1 or eu-central-1)",
       "3. Ensure internet connection is stable"])

/-- The try-block of `query_gbif_with_filter`; `duck_gbif.py` lines 123-144. -/
def filter_tryBody (engine : String → Outcome) (snapshot_date region : String)
    (country_code species : Option String) (limit : Option Int) : Outcome × List String :=
  match engine "INSTALL httpfs;" with
  | .ok _ =>
    match engine "LOAD httpfs;" with
    | .ok _ =>
      match engine ("SET s3_region=\x27" ++ region ++ "\x27;") with
      | .ok _ =>
        match engine (query_gbif_with_filter_query snapshot_date region country_code species limit) with
        | .ok f => (.ok f, ["Query returned " ++ toString f.rows.length ++ " rows"])
        | o => (o, [])
      | o => (o, [])
    | o => (o, [])
  | o => (o, [])

/-- Model of `query_gbif_with_filter`; `duck_gbif.py` lines 107-151. Its
exception handler prints a single diagnostic line and nothing else. -/
def query_gbif_with_filter (engine : String → Outcome) (snapshot_date region : String)
    (country_code species : Option String) (limit : Option Int) : CallResult :=
  tryExceptFinally (filter_tryBody engine snapshot_date region country_code species limit)
    (fun e => ["Error: " ++ e])

/-! ### Model of `clickhouse_gbif.py` -/

/-- The captured result of `subprocess.run`. -/
structure ProcResult where
  returncode : Int
  stdout : String
  stderr : String

/-- The command line built by `clickhouse_query`; `clickhouse_gbif.py`
line 7. -/
def clickhouse_cmd (query : String) : List String :=
  ["./clickhouse", "local", "-q", query, "--format", "CSVWithNames"]

/-- Split a character list at newlines (structural helper for the CSV
model). -/
def splitLines : List Char → List (List Char)
  | [] => [[]]
  | c :: cs =>
    match splitLines cs with
    | [] => [[]]
    | l :: ls => if c == '\n' then [] :: l :: ls else (c :: l) :: ls

/-- Split a character list at commas (structural helper for the CSV
model). -/
def splitCommas : List Char → List (List Char)
  | [] => [[]]
  | c :: cs =>
    match splitCommas cs with
    | [] => [[]]
    | l :: ls => if c == ',' then [] :: l :: ls else (c :: l) :: ls

/-- Modelled from the spec: the external CSV parser (`pandas.read_csv`, not
part of this repository) reading the `CSVWithNames` output — a header line of
column names followed by comma-separated rows; output with no parsable
content (for example an empty standard output) makes the parser raise,
modelled as `none`. -/
def read_csv (s : String) : Option Frame :=
  match (splitLines s.data).filter (fun l => !l.isEmpty) with
  | [] => none
  | header :: rest =>
    some ⟨(splitCommas header).map String.mk, rest.map (fun r => (splitCommas r).map String.mk)⟩

/-- Model of `clickhouse_query`; `clickhouse_gbif.py` lines 5-16. `run` models
`subprocess.run`. The first component is the returned value (`Except.error`
means an uncaught exception, here a CSV-parse failure, propagated out of the
call); the second component is everything printed. -/
def clickhouse_query (run : List String → ProcResult) (query : String) :
    Except String (Option Frame) × List String :=
  if (run (clickhouse_cmd query)).returncode == 0 then
    match read_csv (run (clickhouse_cmd query)).stdout with
    | some df => (.ok (some df), [])
    | none => (.error ("no columns to parse from: " ++ (run (clickhouse_cmd query)).stdout), [])
  else
    (.ok none, ["Error: " ++ (run (clickhouse_cmd query)).stderr])

/-! ### Shared helper lemmas -/

/-- A caught exception in the body makes `tryExceptFinally` return `None`
with the handler's prints appended. -/
theorem tryExceptFinally_exc (b : Outcome × List String) (hp : String → List String)
    (e : String) (h : b.1 = .exc e) :
    tryExceptFinally b hp = ⟨.ok none, b.2 ++ hp e, true⟩ := by
  rcases b with ⟨o, ps⟩
  cases o with
  | ok f => exact absurd h (by simp)
  | exc e2 => simp only at h; rw [show e2 = e by injection h]; rfl
  | fatal e2 => exact absurd h (by simp)

/-- `tryExceptFinally` marks the connection closed on every path. -/
theorem tryExceptFinally_connClosed (b : Outcome × List String)
    (hp : String → List String) : (tryExceptFinally b hp).connClosed = true := by
  rcases b with ⟨o, ps⟩
  cases o <;> rfl

/-! ### Claims -/

/-- Claim C1, counterexample: the storage path hardcoded in the ClickHouse
script's query is not the spec template instantiated at its region
`eu-central-1` and date `2025-11-01` (the bucket host carries an extra
`.s3.eu-central-1.amazonaws.com` endpoint suffix); the template instance
occurs nowhere in that query, while the actual URL occurs in it exactly
once. -/
theorem clickhouse_path_template_counterexample :
    clickhouse_s3_url ≠ spec_path_template "https" "eu-central-1" "2025-11-01"
    ∧ countSubstr clickhouse_s3_url clickhouse_query_text = 1
    ∧ countSubstr (spec_path_template "https" "eu-central-1" "2025-11-01")
        clickhouse_query_text = 0 := by
  refine ⟨by decide, by decide, by decide⟩

/-- Claim C1 (amended): the two parameterised DuckDB paths match the spec
template with scheme `s3` and the region and date interpolated verbatim,
and `read_gbif_from_s3` matches it with the fixed region `us-east-1`; the
ClickHouse script's path instead uses the endpoint form
`https://gbif-open-data-<region>.s3.<region>.amazonaws.com/...` and does not
match the template. -/
theorem storage_path_template_amended :
    (∀ region snapshot_date, s3_path region snapshot_date =
      spec_path_template "s3" region snapshot_date)
    ∧ (∀ snapshot_date, read_gbif_s3_path snapshot_date =
        spec_path_template "s3" "us-east-1" snapshot_date)
    ∧ clickhouse_s3_url =
        "https://gbif-open-data-" ++ "eu-central-1" ++ ".s3." ++ "eu-central-1"
          ++ ".amazonaws.com/occurrence/" ++ "2025-11-01" ++ "/occurrence.parquet/*"
    ∧ clickhouse_s3_url ≠ spec_path_template "https" "eu-central-1" "2025-11-01"
    ∧ countSubstr clickhouse_s3_url clickhouse_query_text = 1 := by
  refine ⟨fun r sd => rfl, fun sd => rfl, rfl, by decide, by decide⟩

/-- Claim C2: with `country_code="US"` and `species=None` the filtered-scan
query is the base plus exactly the country-code condition (and the limit
text); with both parameters supplied both conditions are appended
conjunctively, country code first, species second; concretely, the
`country_code="US"`-only query contains the condition
`AND countrycode = 'US'` exactly once and contains no `species` text at
all. -/
theorem filter_conditions_appended :
    (∀ snapshot_date region lim,
      query_gbif_with_filter_query snapshot_date region (some "US") none lim =
        filter_base snapshot_date region ++ country_cond "US" ++ limit_suffix lim)
    ∧ (∀ snapshot_date region cc sp lim,
        truthyStr (some cc) = true → truthyStr (some sp) = true →
        query_gbif_with_filter_query snapshot_date region (some cc) (some sp) lim =
          filter_base snapshot_date region ++ country_cond cc ++ species_cond sp
            ++ limit_suffix lim)
    ∧ countSubstr " AND countrycode = \x27US\x27"
        (query_gbif_with_filter_query "2025-10-01" "eu-central-1" (some "US") none (some 100)) = 1
    ∧ countSubstr "species"
        (query_gbif_with_filter_query "2025-10-01" "eu-central-1" (some "US") none (some 100)) = 0
    ∧ countSubstr " AND "
        (query_gbif_with_filter_query "2025-10-01" "eu-central-1" (some "US") none (some 100)) = 1 := by
  refine ⟨?_, ?_, by decide, by decide, by decide⟩
  · intro sd r lim
    cases h : truthyInt lim <;>
      simp [query_gbif_with_filter_query, limit_suffix, h, filter_conds, truthyStr,
        show ("US" : String).isEmpty = false from rfl, String.append_empty,
        String.append_assoc]
  · intro sd r cc sp lim hc hs
    cases h : truthyInt lim <;>
      simp [query_gbif_with_filter_query, limit_suffix, h, filter_conds, truthyStr]
        at hc hs ⊢ <;>
      simp [hc, hs, String.append_empty, String.append_assoc]

/-- Claim C2, witness: the two-condition case evaluated at
`country_code="US"`, `species="Quercus"`, `limit=5`. -/
theorem filter_conditions_appended_witness :
    query_gbif_with_filter_query "2025-10-01" "eu-central-1" (some "US") (some "Quercus") (some 5) =
      filter_base "2025-10-01" "eu-central-1" ++ country_cond "US" ++ species_cond "Quercus"
        ++ limit_suffix (some 5) :=
  filter_conditions_appended.2.1 "2025-10-01" "eu-central-1" "US" "Quercus" (some 5)
    (by decide) (by decide)

/-- Claim C3: with `limit=None` neither the unfiltered nor the filtered scan
appends a LIMIT clause, and with `limit=5` each appends exactly the clause
`LIMIT 5`; concretely the `limit=None` queries contain no `LIMIT` text and
the `limit=5` queries contain `LIMIT` exactly once, as `LIMIT 5`. -/
theorem limit_clause_behavior :
    (∀ snapshot_date, read_gbif_query snapshot_date none = read_gbif_base snapshot_date)
    ∧ (∀ snapshot_date, read_gbif_query snapshot_date (some 5) =
        read_gbif_base snapshot_date ++ " LIMIT 5")
    ∧ (∀ snapshot_date region cc sp,
        query_gbif_with_filter_query snapshot_date region cc sp none =
          filter_conds snapshot_date region cc sp)
    ∧ (∀ snapshot_date region cc sp,
        query_gbif_with_filter_query snapshot_date region cc sp (some 5) =
          filter_conds snapshot_date region cc sp ++ " LIMIT 5")
    ∧ countSubstr "LIMIT" (read_gbif_query "2025-10-01" none) = 0
    ∧ countSubstr "LIMIT" (read_gbif_query "2025-10-01" (some 5)) = 1
    ∧ countSubstr "LIMIT 5" (read_gbif_query "2025-10-01" (some 5)) = 1
    ∧ countSubstr "LIMIT" (query_gbif_with_filter_query "2025-10-01" "eu-central-1" none none none) = 0
    ∧ countSubstr "LIMIT" (query_gbif_with_filter_query "2025-10-01" "eu-central-1" none none (some 5)) = 1
    ∧ countSubstr "LIMIT 5" (query_gbif_with_filter_query "2025-10-01" "eu-central-1" none none (some 5)) = 1 := by
  refine ⟨fun sd => rfl, fun sd => rfl, fun sd r cc sp => rfl, fun sd r cc sp => rfl,
    by decide, by decide, by decide, by decide, by decide, by decide⟩

/-- Claim C4, counterexample: the ClickHouse script's aggregate query (which
the claim says excludes rows with a null countrycode) contains no
null-exclusion filter — indeed no WHERE clause at all — even though it is
the aggregate-top-N query (it groups by countrycode). -/
theorem clickhouse_null_exclusion_counterexample :
    excludesNullCountrycode clickhouse_query_text = false
    ∧ countSubstr "WHERE" clickhouse_query_text = 0
    ∧ countSubstr "GROUP BY countrycode" clickhouse_query_text = 1 := by
  refine ⟨by decide, by decide, by decide⟩

/-- Claim C4 (amended): both aggregate queries group by countrycode, count
distinct specieskey values per group, order descending by that count and,
with `limit=10`, request at most 10 rows via a single `LIMIT 10` clause; the
DuckDB query additionally excludes rows with a null countrycode, while the
ClickHouse query contains no such null exclusion. -/
theorem aggregate_topN_shape_amended :
    countSubstr "GROUP BY countrycode"
      (get_top_countries_query "2025-10-01" "eu-central-1" (some 10)) = 1
    ∧ countSubstr "COUNT(DISTINCT specieskey)"
        (get_top_countries_query "2025-10-01" "eu-central-1" (some 10)) = 1
    ∧ countSubstr "ORDER BY distinct_species_count DESC"
        (get_top_countries_query "2025-10-01" "eu-central-1" (some 10)) = 1
    ∧ countSubstr "LIMIT"
        (get_top_countries_query "2025-10-01" "eu-central-1" (some 10)) = 1
    ∧ countSubstr "LIMIT 10"
        (get_top_countries_query "2025-10-01" "eu-central-1" (some 10)) = 1
    ∧ excludesNullCountrycode
        (get_top_countries_query "2025-10-01" "eu-central-1" (some 10)) = true
    ∧ countSubstr "GROUP BY countrycode" clickhouse_query_text = 1
    ∧ countSubstr "countDistinct(specieskey)" clickhouse_query_text = 1
    ∧ countSubstr "ORDER BY distinct_species_count DESC" clickhouse_query_text = 1
    ∧ countSubstr "LIMIT" clickhouse_query_text = 1
    ∧ countSubstr "LIMIT 10" clickhouse_query_text = 1
    ∧ excludesNullCountrycode clickhouse_query_text = false := by
  refine ⟨by decide, by decide, by decide, by decide, by decide, by decide,
    by decide, by decide, by decide, by decide, by decide, by decide⟩

/-- Claim C5: whenever the external process exits with a non-zero status,
`clickhouse_query` prints the captured standard-error text and returns the
sentinel `None` instead of raising. -/
theorem clickhouse_nonzero_exit_sentinel (run : List String → ProcResult) (q : String)
    (h : (run (clickhouse_cmd q)).returncode ≠ 0) :
    clickhouse_query run q =
      (.ok none, ["Error: " ++ (run (clickhouse_cmd q)).stderr]) := by
  unfold clickhouse_query
  rw [if_neg (by simpa using h)]

/-- Claim C5, witness: a process that exits with status 1 and stderr text
`some failure`. -/
theorem clickhouse_nonzero_exit_sentinel_witness :
    clickhouse_query (fun _ => ⟨1, "", "some failure"⟩) "SELECT 1" =
      (.ok none, ["Error: some failure"]) :=
  (clickhouse_nonzero_exit_sentinel (fun _ => ⟨1, "", "some failure"⟩) "SELECT 1"
    (by decide)).trans rfl

/-- Claim C6, counterexample: when the engine raises on the very first
statement, `query_gbif_with_filter` does return the sentinel but prints only
the single diagnostic line `Error: boom` — no troubleshooting hints appear
anywhere in its output, contradicting the claim that every embedded-backend
function prints a fixed set of troubleshooting hints. -/
theorem filter_handler_no_hints_counterexample :
    (query_gbif_with_filter (fun _ => .exc "boom") "2025-10-01" "eu-central-1"
        none none (some 100)).prints = ["Error: boom"]
    ∧ (query_gbif_with_filter (fun _ => .exc "boom") "2025-10-01" "eu-central-1"
        none none (some 100)).result = .ok none
    ∧ ((query_gbif_with_filter (fun _ => .exc "boom") "2025-10-01" "eu-central-1"
        none none (some 100)).prints.all
          (fun p => countSubstr "Troubleshooting" p == 0)) = true := by
  refine ⟨rfl, rfl, by decide⟩

/-- Claim C6 (amended): on any caught engine exception every embedded-backend
function returns the sentinel `None` instead of raising and prints a
diagnostic message; `read_gbif_from_s3` and `get_top_countries_by_species`
additionally print their fixed troubleshooting hints, while
`query_gbif_with_filter` prints only the single diagnostic line. -/
theorem embedded_failure_sentinel_amended (engine : String → Outcome)
    (snapshot_date region : String) (cc sp : Option String) (lim : Option Int)
    (e : String) :
    ((read_gbif_tryBody engine snapshot_date lim).1 = .exc e →
      read_gbif_from_s3 engine snapshot_date lim =
        ⟨.ok none, (read_gbif_tryBody engine snapshot_date lim).2 ++
          ["Error reading from S3: " ++ e,
           "\nTroubleshooting tips:",
           "1. Ensure the snapshot date exists (e.g., \x272023-06-01\x27, \x272024-01-01\x27)",
           "2. Check your internet connection",
           "3. Verify the S3 path is correct"], true⟩)
    ∧ ((get_top_tryBody engine snapshot_date region lim).1 = .exc e →
        get_top_countries_by_species engine snapshot_date region lim =
          ⟨.ok none, (get_top_tryBody engine snapshot_date region lim).2 ++
            ["Error querying S3: " ++ e,
             "\nTroubleshooting tips:",
             "1. Verify snapshot date \x27" ++ snapshot_date ++ "\x27 exists",
             "2. Check region \x27" ++ region ++ "\x27 is correct (us-east-1 or eu-central-1)",
             "3. Ensure internet connection is stable"], true⟩)
    ∧ ((filter_tryBody engine snapshot_date region cc sp lim).1 = .exc e →
        query_gbif_with_filter engine snapshot_date region cc sp lim =
          ⟨.ok none, (filter_tryBody engine snapshot_date region cc sp lim).2 ++
            ["Error: " ++ e], true⟩) :=
  ⟨fun h => tryExceptFinally_exc _ _ e h,
   fun h => tryExceptFinally_exc _ _ e h,
   fun h => tryExceptFinally_exc _ _ e h⟩

/-- Claim C6, witness: an engine whose first statement raises
`network down`, evaluated for all three functions. -/
theorem embedded_failure_sentinel_amended_witness :
    read_gbif_from_s3 (fun _ => .exc "network down") "2025-10-01" (some 10) =
      ⟨.ok none,
       ["Error reading from S3: network down",
        "\nTroubleshooting tips:",
        "1. Ensure the snapshot date exists (e.g., \x272023-06-01\x27, \x272024-01-01\x27)",
        "2. Check your internet connection",
        "3. Verify the S3 path is correct"], true⟩
    ∧ get_top_countries_by_species (fun _ => .exc "network down") "2025-10-01"
        "eu-central-1" (some 10) =
      ⟨.ok none,
       ["Error querying S3: network down",
        "\nTroubleshooting tips:",
        "1. Verify snapshot date \x272025-10-01\x27 exists",
        "2. Check region \x27eu-central-1\x27 is correct (us-east-1 or eu-central-1)",
        "3. Ensure internet connection is stable"], true⟩
    ∧ query_gbif_with_filter (fun _ => .exc "network down") "2025-10-01"
        "eu-central-1" none none (some 100) =
      ⟨.ok none, ["Error: network down"], true⟩ := by
  have h := embedded_failure_sentinel_amended (fun _ => .exc "network down")
    "2025-10-01" "eu-central-1" none none (some 10) "network down"
  have h2 := embedded_failure_sentinel_amended (fun _ => .exc "network down")
    "2025-10-01" "eu-central-1" none none (some 100) "network down"
  exact ⟨(h.1 rfl).trans rfl, (h.2.1 rfl).trans rfl, (h2.2.2 rfl).trans rfl⟩

/-- Claim C7: every embedded-backend call has closed its connection when it
returns, whatever the engine does on each statement — on success, on a
caught exception, and on an uncaught (non-Exception) interruption alike. -/
theorem session_always_closed (engine : String → Outcome)
    (snapshot_date region : String) (cc sp : Option String) (lim : Option Int) :
    (read_gbif_from_s3 engine snapshot_date lim).connClosed = true
    ∧ (get_top_countries_by_species engine snapshot_date region lim).connClosed = true
    ∧ (query_gbif_with_filter engine snapshot_date region cc sp lim).connClosed = true :=
  ⟨tryExceptFinally_connClosed _ _, tryExceptFinally_connClosed _ _,
   tryExceptFinally_connClosed _ _⟩

/-- Claim C8: when the process exits with status 0 but its standard output
cannot be parsed as the CSV format (for example empty output),
`clickhouse_query` neither prints nor returns the sentinel: the parse
exception propagates out of the call uncaught. -/
theorem clickhouse_parse_failure_propagates (run : List String → ProcResult) (q : String)
    (h0 : (run (clickhouse_cmd q)).returncode = 0)
    (hp : read_csv (run (clickhouse_cmd q)).stdout = none) :
    clickhouse_query run q =
      (.error ("no columns to parse from: " ++ (run (clickhouse_cmd q)).stdout), [])
    ∧ read_csv "" = none := by
  refine ⟨?_, rfl⟩
  unfold clickhouse_query
  rw [if_pos (by simp [h0]), hp]

/-- Claim C8, witness: a process that exits with status 0 and empty standard
output. -/
theorem clickhouse_parse_failure_propagates_witness :
    clickhouse_query (fun _ => ⟨0, "", ""⟩) "SELECT 1" =
      (.error "no columns to parse from: ", []) ∧ read_csv "" = none := by
  have h := clickhouse_parse_failure_propagates (fun _ => ⟨0, "", ""⟩) "SELECT 1" rfl rfl
  exact ⟨h.1.trans rfl, h.2⟩

/-- Claim C9: the limit guard is a Python truthiness test, so `limit=0`
appends no LIMIT clause in the unfiltered and filtered scans — the generated
query is identical to the `limit=None` one and contains no `LIMIT` text. -/
theorem limit_zero_falsy :
    (∀ snapshot_date, read_gbif_query snapshot_date (some 0) =
      read_gbif_query snapshot_date none)
    ∧ (∀ snapshot_date region cc sp,
        query_gbif_with_filter_query snapshot_date region cc sp (some 0) =
          query_gbif_with_filter_query snapshot_date region cc sp none)
    ∧ countSubstr "LIMIT" (read_gbif_query "2025-10-01" (some 0)) = 0
    ∧ countSubstr "LIMIT"
        (query_gbif_with_filter_query "2025-10-01" "eu-central-1" none none (some 0)) = 0 := by
  refine ⟨fun sd => rfl, fun sd r cc sp => rfl, by decide, by decide⟩

/-- Claim C10: `get_top_countries_by_species` interpolates the limit into the
query text unconditionally — the query always ends in a LIMIT clause — and
`limit=None` produces the literal text `LIMIT None` (and even the falsy
`limit=0` produces `LIMIT 0`). -/
theorem get_top_limit_unconditional :
    get_top_countries_query "2025-10-01" "eu-central-1" none =
      "\n        SELECT \n            countrycode, \n            COUNT(DISTINCT specieskey) AS distinct_species_count \n        FROM read_parquet(\x27s3://gbif-open-data-eu-central-1/occurrence/2025-10-01/occurrence.parquet/*\x27)\n        WHERE countrycode IS NOT NULL\n        GROUP BY countrycode \n        ORDER BY distinct_species_count DESC \n        LIMIT None\n        "
    ∧ countSubstr "LIMIT None"
        (get_top_countries_query "2025-10-01" "eu-central-1" none) = 1
    ∧ countSubstr "LIMIT 0"
        (get_top_countries_query "2025-10-01" "eu-central-1" (some 0)) = 1
    ∧ (∀ snapshot_date region lim, get_top_countries_query snapshot_date region lim =
        get_top_query_head snapshot_date region ++ pyStr lim ++ "\n        ") := by
  refine ⟨rfl, by decide, by decide, fun sd r lim => rfl⟩

end GbifSpec
